import Mathlib

/-!
Verification of the update-manager orchestrator (src/update-manager.c).

The program is a straight-line update transaction in `main`:
open repo → list remotes → ensure remote → pull → resolve → load sysroot →
build origin → stage → cleanup, with goto-cleanup error handling.

We embed it as a pure function from an `Oracle` — the behavior of the
external collaborators (libostree calls and the store/sysroot they act on) —
to the run's trace of collaborator invocations, its outcome (exit status or
a crash from undefined behavior), the GError reads it performs when
reporting failures, and the lines it prints.
-/

namespace UpdateManager

/-- Fixed constants of `main` (src/update-manager.c, lines 120-125). -/
def osname : String := "myos"

/-- The remote name `main` uses (line 121). -/
def remote_name : String := "linuxmint"

/-- The remote URL `main` uses (line 122). -/
def remote_url : String := "https://updates.myserver.com/ostreerepo"

/-- The repository path passed to open_repo (line 129). -/
def repo_path : String := "/sysroot/ostree/repo"

/-- The ref `main` updates to (line 124). -/
def ref : String := "myOS/amd64/stable"

/-- The NULL-terminated refs array `{ ref, NULL }` (line 125). -/
def refs : List String := [ref]

/-- stdlib exit status for success. -/
def EXIT_SUCCESS : Nat := 0

/-- stdlib exit status for failure. -/
def EXIT_FAILURE : Nat := 1

/-- Behavior of the external collaborators for one run: the result each
libostree call would return, with the diagnostic message it would place in
the caller's GError on failure. `remotes` is the set of remote names
configured in the repository the run opens. -/
structure Oracle where
  ostree_repo_open_ok : Bool
  open_err : String
  remotes : List String
  ostree_repo_remote_add_ok : Bool
  add_err : String
  ostree_repo_pull_ok : Bool
  pull_err : String
  resolve_result : Option String
  resolve_err : String
  ostree_sysroot_load_ok : Bool
  load_err : String
  origin_new_ok : Bool
  stage_ok : Bool
  stage_err : String
  sysroot_cleanup_ok : Bool
  cleanup_err : String
deriving DecidableEq

/-- One invocation of an external-collaborator operation, with the
arguments the program passes to it. -/
inductive Event
  | openRepo (path : String)
  | listRemotes
  | addRemote (name url : String)
  | pull (remote : String) (refsArg : List String)
  | resolve (refArg : String)
  | loadSysroot
  | originNew (refspec : String)
  | stage (os commit : String)
  | sysrootCleanup
deriving DecidableEq

/-- How a run of the process ends: a normal exit with a status, or a crash
(undefined behavior reached: dereference of a NULL GError). -/
inductive Outcome
  | exit (status : Nat)
  | crash
deriving DecidableEq

/-- The point from which `main` jumps (or falls through) to the cleanup
label — or `originFail`, which crashes before reaching it. -/
inductive ExitPoint
  | openFail | listFail | addFail | pullFail | resolveFail | loadFail
  | originFail | deployFail | cleanupFail | success
deriving DecidableEq

/-- Observable result of one run: the ordered trace of collaborator
invocations, the outcome, where the run left the main sequence, the
GError-message reads done while reporting failures (`none` = the GError
pointer was NULL when read), and the printed lines in order. -/
structure RunResult where
  trace : List Event
  outcome : Outcome
  exitVia : ExitPoint
  errorReads : List (String × Option String)
  prints : List String
deriving DecidableEq

/-- `ostree_repo_remote_list` returns the configured remote names, or NULL
when there are none; it takes no GError and has no failure mode of its own. -/
def ostree_repo_remote_list (remotes : List String) : Option (List String) :=
  if remotes.isEmpty then none else some remotes

/-- Result of `list_remote`: the returned array and the GError it set. -/
structure ListRemoteResult where
  result : Option (List String)
  err : Option String
deriving DecidableEq

/-- `list_remote` (lines 25-37): calls `ostree_repo_remote_list` and, when
that returns NULL, sets the GError to "Failed to list remotes". -/
def list_remote (remotes : List String) : ListRemoteResult :=
  match ostree_repo_remote_list remotes with
  | none => { result := none, err := some "Failed to list remotes" }
  | some l => { result := some l, err := none }

/-- What one call to `pull_remote` does: the refs entry it places in the
options dictionary, whether it invoked `ostree_repo_pull_with_options`,
and the result that call returned. -/
structure PullCall where
  optionsRefs : List String
  primitiveInvoked : Bool
  ok : Bool
deriving DecidableEq

/-- `pull_remote` (lines 51-69): builds the options dictionary with the
given refs array and unconditionally calls
`ostree_repo_pull_with_options`; there is no check for an empty refs set
and no early return. -/
def pull_remote (pullOk : Bool) (refsArg : List String) : PullCall :=
  { optionsRefs := refsArg, primitiveInvoked := true, ok := pullOk }

/-- `g_snprintf(buf, size, ...)` writes at most `size - 1` characters of
the formatted string and NUL-terminates. -/
def g_snprintf (size : Nat) (s : String) : String := s.take (size - 1)

/-- `sizeof(char*)` on the 64-bit targets this program is compiled for. -/
def sizeof_char_ptr : Nat := 8

/-- The refspec string `create_origin` (lines 93-104) actually produces:
`g_snprintf(refspec_str, sizeof(refspec_str), "%s:%s", remote_name, ref)`
where `refspec_str` is a `char *` parameter, so `sizeof(refspec_str)` is
the size of a pointer, not of the caller's 128-byte buffer. -/
def create_origin_refspec (remote ref0 : String) : String :=
  g_snprintf sizeof_char_ptr (remote ++ ":" ++ ref0)

/-- Modelled from the spec: the canonical refspec the origin is specified
to carry — the full concatenation `remote ++ ":" ++ ref`. -/
def canonical_refspec (remote ref0 : String) : String := remote ++ ":" ++ ref0

/-- Listing printout of `main` (lines 142-144): "Remote i+1: name" for each
remote, numbering from the given starting index. -/
def printRemoteList : Nat → List String → List String
  | _, [] => []
  | i, r :: rs => ("Remote " ++ toString (i + 1) ++ ": " ++ r) :: printRemoteList (i + 1) rs

/-- Lines 215-221: `ostree_sysroot_cleanup`; on failure sets EXIT_FAILURE
and jumps to cleanup, which then prints "Update failed". -/
def stepCleanupRun (o : Oracle) : RunResult :=
  if o.sysroot_cleanup_ok = false then
    { trace := [Event.sysrootCleanup], outcome := .exit EXIT_FAILURE, exitVia := .cleanupFail,
      errorReads := [("OSTree cleanup failed", some o.cleanup_err)],
      prints := ["OSTree cleanup failed: " ++ o.cleanup_err, "Update failed"] }
  else
    { trace := [Event.sysrootCleanup], outcome := .exit EXIT_SUCCESS, exitVia := .success,
      errorReads := [],
      prints := ["OSTree cleanup completed successfully.", "All operations completed successfully."] }

/-- Lines 208-213: `deploy_tree` (`ostree_sysroot_stage_tree_with_options`);
on success prints the staged commit and falls through to cleanup. -/
def stepStage (o : Oracle) (new_commit : String) : RunResult :=
  if o.stage_ok = false then
    { trace := [Event.stage osname new_commit], outcome := .exit EXIT_FAILURE, exitVia := .deployFail,
      errorReads := [("Failed to deploy tree", some o.stage_err)],
      prints := ["Failed to deploy tree: " ++ o.stage_err, "Update failed"] }
  else
    let r := stepCleanupRun o
    { trace := Event.stage osname new_commit :: r.trace, outcome := r.outcome, exitVia := r.exitVia,
      errorReads := r.errorReads,
      prints := ("Deployed new commit " ++ new_commit ++ ". It will boot on next restart.") :: r.prints }

/-- Lines 199-206: `create_origin`. It takes no GError and never sets one;
on failure `main` evaluates `error->message` with `error` still NULL, an
undefined-behavior dereference, so the run crashes before reaching the
cleanup label. -/
def stepOrigin (o : Oracle) (new_commit : String) : RunResult :=
  let refspec_str := create_origin_refspec remote_name ref
  if o.origin_new_ok = false then
    { trace := [Event.originNew refspec_str], outcome := .crash, exitVia := .originFail,
      errorReads := [("Failed to create an .origin file", none)],
      prints := [] }
  else
    let r := stepStage o new_commit
    { trace := Event.originNew refspec_str :: r.trace, outcome := r.outcome, exitVia := r.exitVia,
      errorReads := r.errorReads,
      prints := "Origin file created successfully." :: r.prints }

/-- Lines 191-197: `ostree_sysroot_new_default` then `load_deployments`. -/
def stepLoad (o : Oracle) (new_commit : String) : RunResult :=
  if o.ostree_sysroot_load_ok = false then
    { trace := [Event.loadSysroot], outcome := .exit EXIT_FAILURE, exitVia := .loadFail,
      errorReads := [("Failed to load deployments", some o.load_err)],
      prints := ["Failed to load deployments: " ++ o.load_err, "Update failed"] }
  else
    let r := stepOrigin o new_commit
    { trace := Event.loadSysroot :: r.trace, outcome := r.outcome, exitVia := r.exitVia,
      errorReads := r.errorReads,
      prints := "Sysroot deployments loaded successfully." :: r.prints }

/-- Lines 183-189: `resolve_rev` (`ostree_repo_resolve_rev`). -/
def stepResolve (o : Oracle) : RunResult :=
  match o.resolve_result with
  | none =>
    { trace := [Event.resolve ref], outcome := .exit EXIT_FAILURE, exitVia := .resolveFail,
      errorReads := [("Failed to resolve commits", some o.resolve_err)],
      prints := ["Failed to resolve commits: " ++ o.resolve_err, "Update failed"] }
  | some new_commit =>
    let r := stepLoad o new_commit
    { trace := Event.resolve ref :: r.trace, outcome := r.outcome, exitVia := r.exitVia,
      errorReads := r.errorReads,
      prints := ("Resolved commit: " ++ new_commit) :: r.prints }

/-- Lines 176-181: `pull_remote`; note the failure message goes through
g_print in the source, which we record in `prints` like the others. -/
def stepPull (o : Oracle) : RunResult :=
  let call := pull_remote o.ostree_repo_pull_ok refs
  if call.ok = false then
    { trace := [Event.pull remote_name call.optionsRefs], outcome := .exit EXIT_FAILURE, exitVia := .pullFail,
      errorReads := [("Failed to pull refs", some o.pull_err)],
      prints := ["Failed to pull refs: " ++ o.pull_err, "Update failed"] }
  else
    let r := stepResolve o
    { trace := Event.pull remote_name call.optionsRefs :: r.trace, outcome := r.outcome, exitVia := r.exitVia,
      errorReads := r.errorReads,
      prints := ("Pull from remote '" ++ remote_name ++ "' completed successfully.") :: r.prints }

/-- Lines 146-174: scan the listed names for `remote_name`; if present skip
the add, otherwise `add_remote`. (The source's `else` branch at lines
167-174 is unreachable: a NULL `remote_list` exited at line 140.) -/
def stepEnsure (o : Oracle) (remote_list : List String) : RunResult :=
  if remote_list.contains remote_name then
    let r := stepPull o
    { trace := r.trace, outcome := r.outcome, exitVia := r.exitVia,
      errorReads := r.errorReads,
      prints := ("Remote '" ++ remote_name ++ "' already exists.") :: r.prints }
  else
    if o.ostree_repo_remote_add_ok = false then
      { trace := [Event.addRemote remote_name remote_url], outcome := .exit EXIT_FAILURE, exitVia := .addFail,
        errorReads := [("Failed to add remote", some o.add_err)],
        prints := ["Failed to add remote: " ++ o.add_err, "Update failed"] }
    else
      let r := stepPull o
      { trace := Event.addRemote remote_name remote_url :: r.trace, outcome := r.outcome, exitVia := r.exitVia,
        errorReads := r.errorReads,
        prints := ("Remote '" ++ remote_name ++ "' added successfully.") :: r.prints }

/-- The whole of `main` (lines 118-247): open the repo, list remotes, then
run the remaining steps in sequence, each gated on the previous. -/
def exec (o : Oracle) : RunResult :=
  if o.ostree_repo_open_ok = false then
    { trace := [Event.openRepo repo_path], outcome := .exit EXIT_FAILURE, exitVia := .openFail,
      errorReads := [("Failed to open repo", some o.open_err)],
      prints := ["Failed to open repo: " ++ o.open_err, "Update failed"] }
  else
    match (list_remote o.remotes).result with
    | none =>
      { trace := [Event.openRepo repo_path, Event.listRemotes], outcome := .exit EXIT_FAILURE, exitVia := .listFail,
        errorReads := [("Failed to list remotes", some "Failed to list remotes")],
        prints := ["Repository opened successfully!",
                   "Failed to list remotes: Failed to list remotes", "Update failed"] }
    | some remote_list =>
      let r := stepEnsure o remote_list
      { trace := Event.openRepo repo_path :: Event.listRemotes :: r.trace,
        outcome := r.outcome, exitVia := r.exitVia,
        errorReads := r.errorReads,
        prints := "Repository opened successfully!" :: (printRemoteList 0 remote_list ++ r.prints) }

/-- `main` is declared `int main()`: command-line arguments and the
environment are never read anywhere in the source. -/
def mainEntry (_argv : List String) (_envp : List (String × String)) (o : Oracle) : RunResult :=
  exec o

/-- Store-level remote configuration, as the pair list the repository's
config holds: (name, url). `ostree_repo_remote_add` with its default flag
rejects a name that is already configured and otherwise appends the new
remote. I/O failure modes of the underlying store are outside this model. -/
def ostree_repo_remote_add (store : List (String × String)) (name url : String) :
    Option (List (String × String)) :=
  if (store.map Prod.fst).contains name then none
  else some (store ++ [(name, url)])

/-- Result of one run of the ensure-remote step: the store afterwards,
whether `add_remote` was invoked, and whether the step succeeded. -/
structure EnsureResult where
  store : List (String × String)
  addInvoked : Bool
  ok : Bool
deriving DecidableEq

/-- The ensure-remote step of `main` (lines 146-174) over a store: scan the
listed remote names for `name` (the loop at lines 149-154); if found, skip
the add (line 157); otherwise call `add_remote` (lines 159-164), which is
`ostree_repo_remote_add` (lines 40-48). -/
def ensureStep (store : List (String × String)) (name url : String) : EnsureResult :=
  if (store.map Prod.fst).contains name then
    { store := store, addInvoked := false, ok := true }
  else
    match ostree_repo_remote_add store name url with
    | some s => { store := s, addInvoked := true, ok := true }
    | none => { store := store, addInvoked := true, ok := false }

/-- State of one of `main`'s local pointer variables at the cleanup label. -/
inductive VarState
  | uninitialized
  | null
  | acquired
deriving DecidableEq

/-- The five locals the cleanup label (lines 223-239) tests and releases. -/
structure CleanupVars where
  repo : VarState
  remote_list : VarState
  new_commit : VarState
  sysroot : VarState
  origin : VarState
deriving DecidableEq

/-- The state of `main`'s locals when control reaches the cleanup label
from each exit point. The declarations sit at line 128 (`repo`), 136
(`remote_list`), 183 (`new_commit`), 191 (`sysroot`), 199 (`origin`); a
`goto cleanup` from before a declaration jumps over its initializer, so at
the label that variable holds an indeterminate value (C11 6.2.4p6, 6.8.6.1).
The build-origin failure path crashes before the label (NULL GError
dereference at line 202), so it yields no cleanup state. -/
def varsAtCleanup : ExitPoint → Option CleanupVars
  | .openFail => some { repo := .null, remote_list := .uninitialized, new_commit := .uninitialized,
                        sysroot := .uninitialized, origin := .uninitialized }
  | .listFail => some { repo := .acquired, remote_list := .null, new_commit := .uninitialized,
                        sysroot := .uninitialized, origin := .uninitialized }
  | .addFail => some { repo := .acquired, remote_list := .acquired, new_commit := .uninitialized,
                       sysroot := .uninitialized, origin := .uninitialized }
  | .pullFail => some { repo := .acquired, remote_list := .acquired, new_commit := .uninitialized,
                        sysroot := .uninitialized, origin := .uninitialized }
  | .resolveFail => some { repo := .acquired, remote_list := .acquired, new_commit := .null,
                           sysroot := .uninitialized, origin := .uninitialized }
  | .loadFail => some { repo := .acquired, remote_list := .acquired, new_commit := .acquired,
                        sysroot := .acquired, origin := .uninitialized }
  | .originFail => none
  | .deployFail => some { repo := .acquired, remote_list := .acquired, new_commit := .acquired,
                          sysroot := .acquired, origin := .acquired }
  | .cleanupFail => some { repo := .acquired, remote_list := .acquired, new_commit := .acquired,
                           sysroot := .acquired, origin := .acquired }
  | .success => some { repo := .acquired, remote_list := .acquired, new_commit := .acquired,
                       sysroot := .acquired, origin := .acquired }

/-- The cleanup label tests every one of the five locals (`if (repo)`,
`if (remote_list)`, ...): true when any of those reads sees an
indeterminate (jumped-over) variable. -/
def cleanupReadsUninitialized (v : CleanupVars) : Bool :=
  decide (v.repo = VarState.uninitialized) || decide (v.remote_list = VarState.uninitialized) ||
  decide (v.new_commit = VarState.uninitialized) || decide (v.sysroot = VarState.uninitialized) ||
  decide (v.origin = VarState.uninitialized)

/-- A simple sanity example oracle on which every step succeeds. -/
def oAllOk : Oracle :=
  { ostree_repo_open_ok := true, open_err := ""
    remotes := ["linuxmint"]
    ostree_repo_remote_add_ok := true, add_err := ""
    ostree_repo_pull_ok := true, pull_err := ""
    resolve_result := some "c0ffee", resolve_err := ""
    ostree_sysroot_load_ok := true, load_err := ""
    origin_new_ok := true
    stage_ok := true, stage_err := ""
    sysroot_cleanup_ok := true, cleanup_err := "" }

example : (exec oAllOk).outcome = Outcome.exit EXIT_SUCCESS := by decide

example : (exec oAllOk).trace =
    [Event.openRepo repo_path, Event.listRemotes, Event.pull remote_name refs,
     Event.resolve ref, Event.loadSysroot, Event.originNew "linuxmi",
     Event.stage osname "c0ffee", Event.sysrootCleanup] := by decide

/-- The collaborator trace from the pull step on, as a function of the
oracle: each later step appears only when the one before it succeeded. -/
def tailTrace (o : Oracle) : List Event :=
  Event.pull remote_name refs ::
    if o.ostree_repo_pull_ok = false then [] else
      Event.resolve ref ::
        match o.resolve_result with
        | none => []
        | some c =>
            Event.loadSysroot ::
              if o.ostree_sysroot_load_ok = false then [] else
                Event.originNew (create_origin_refspec remote_name ref) ::
                  if o.origin_new_ok = false then [] else
                    Event.stage osname c ::
                      if o.stage_ok = false then [] else [Event.sysrootCleanup]

/-- The canonical full step sequence of one run, in program order. -/
def fullSequence (o : Oracle) : List Event :=
  [Event.openRepo repo_path, Event.listRemotes, Event.addRemote remote_name remote_url,
   Event.pull remote_name refs, Event.resolve ref, Event.loadSysroot,
   Event.originNew (create_origin_refspec remote_name ref),
   Event.stage osname (o.resolve_result.getD ""), Event.sysrootCleanup]

/-- Some step strictly before staging fails: opening the store, listing
remotes (which in this code a zero-remote store also triggers), adding the
remote when it is absent, pulling, resolving, loading deployments, or
building the origin. -/
def preStageFailure (o : Oracle) : Prop :=
  o.ostree_repo_open_ok = false ∨ o.remotes = [] ∨
  (remote_name ∉ o.remotes ∧ o.ostree_repo_remote_add_ok = false) ∨
  o.ostree_repo_pull_ok = false ∨ o.resolve_result = none ∨
  o.ostree_sysroot_load_ok = false ∨ o.origin_new_ok = false

/-- Oracle on which opening the repository fails. -/
def oOpenFail : Oracle := { oAllOk with ostree_repo_open_ok := false, open_err := "no repo" }

/-- Oracle for a readable store that simply has zero configured remotes. -/
def oEmptyStore : Oracle := { oAllOk with remotes := [] }

/-- Oracle on which everything succeeds until
`ostree_sysroot_origin_new_from_refspec` returns NULL. -/
def oOriginFail : Oracle := { oAllOk with origin_new_ok := false }

/-- Oracle on which everything succeeds until `ostree_sysroot_cleanup` fails. -/
def oCleanupFail : Oracle :=
  { oAllOk with sysroot_cleanup_ok := false, cleanup_err := "disk full" }

theorem stepCleanupRun_trace (o : Oracle) :
    (stepCleanupRun o).trace = [Event.sysrootCleanup] := by
  unfold stepCleanupRun; split <;> rfl

theorem stepStage_trace (o : Oracle) (c : String) :
    (stepStage o c).trace =
      Event.stage osname c :: if o.stage_ok = false then [] else [Event.sysrootCleanup] := by
  unfold stepStage
  split
  · next h => simp [h]
  · next h => simp [h, stepCleanupRun_trace]

theorem stepOrigin_trace (o : Oracle) (c : String) :
    (stepOrigin o c).trace =
      Event.originNew (create_origin_refspec remote_name ref) ::
        if o.origin_new_ok = false then [] else
          Event.stage osname c ::
            if o.stage_ok = false then [] else [Event.sysrootCleanup] := by
  unfold stepOrigin
  split
  · next h => simp [h]
  · next h => simp [h, stepStage_trace]

theorem stepLoad_trace (o : Oracle) (c : String) :
    (stepLoad o c).trace =
      Event.loadSysroot ::
        if o.ostree_sysroot_load_ok = false then [] else
          Event.originNew (create_origin_refspec remote_name ref) ::
            if o.origin_new_ok = false then [] else
              Event.stage osname c ::
                if o.stage_ok = false then [] else [Event.sysrootCleanup] := by
  unfold stepLoad
  split
  · next h => simp [h]
  · next h => simp [h, stepOrigin_trace]

theorem stepResolve_trace (o : Oracle) :
    (stepResolve o).trace =
      Event.resolve ref ::
        match o.resolve_result with
        | none => []
        | some c =>
            Event.loadSysroot ::
              if o.ostree_sysroot_load_ok = false then [] else
                Event.originNew (create_origin_refspec remote_name ref) ::
                  if o.origin_new_ok = false then [] else
                    Event.stage osname c ::
                      if o.stage_ok = false then [] else [Event.sysrootCleanup] := by
  unfold stepResolve
  cases h : o.resolve_result with
  | none => simp [h]
  | some c => simp [h, stepLoad_trace]

theorem stepPull_trace (o : Oracle) : (stepPull o).trace = tailTrace o := by
  unfold stepPull pull_remote tailTrace
  split
  · next h => simp_all
  · next h => simp_all [stepResolve_trace]

theorem stepEnsure_trace (o : Oracle) (l : List String) :
    (stepEnsure o l).trace =
      if l.contains remote_name then tailTrace o
      else if o.ostree_repo_remote_add_ok = false then [Event.addRemote remote_name remote_url]
      else Event.addRemote remote_name remote_url :: tailTrace o := by
  unfold stepEnsure
  split
  · next h => simp [h, stepPull_trace]
  · next h =>
    split
    · next h2 => simp [h, h2]
    · next h2 => simp [h, h2, stepPull_trace]

/-- The full collaborator trace of one run, as a function of the oracle. -/
theorem exec_trace (o : Oracle) :
    (exec o).trace =
      Event.openRepo repo_path ::
        if o.ostree_repo_open_ok = false then [] else
          Event.listRemotes ::
            if o.remotes.isEmpty then [] else
              if o.remotes.contains remote_name then tailTrace o
              else if o.ostree_repo_remote_add_ok = false then
                [Event.addRemote remote_name remote_url]
              else Event.addRemote remote_name remote_url :: tailTrace o := by
  by_cases hop : o.ostree_repo_open_ok = false
  · unfold exec; simp [hop]
  · by_cases hre : o.remotes.isEmpty
    · unfold exec; simp [hop, hre, list_remote, ostree_repo_remote_list]
    · unfold exec
      simp [hop, hre, list_remote, ostree_repo_remote_list, stepEnsure_trace]

/-- Claim C3 (code evidence): `create_origin` does not produce the canonical
concatenation `remote ++ ":" ++ ref`. Its `g_snprintf` call passes
`sizeof(refspec_str)` where `refspec_str` is a `char *` parameter, so the
written refspec is truncated to 7 characters: the spec's example
origin("acme","stable/amd64") yields "acme:st", not "acme:stable/amd64",
and the program's own remote/ref pair yields "linuxmi". -/
theorem c3_create_origin_truncates_refspec :
    create_origin_refspec "acme" "stable/amd64" = "acme:st" ∧
    create_origin_refspec "acme" "stable/amd64" ≠ canonical_refspec "acme" "stable/amd64" ∧
    create_origin_refspec remote_name ref = "linuxmi" ∧
    canonical_refspec remote_name ref = "linuxmint:myOS/amd64/stable" := by
  refine ⟨rfl, ?_, rfl, rfl⟩
  decide

/-- Claim C4 (code evidence): `pull_remote` contains no empty-set guard.
For every result the transfer primitive would return, calling it with an
empty refs set still invokes `ostree_repo_pull_with_options`, passing the
empty refs array through in the options dictionary, and simply returns the
primitive's result; no `NoRefsRequested` error exists in the code. -/
theorem c4_empty_refs_still_invokes_primitive :
    ∀ pullOk : Bool,
      (pull_remote pullOk []).primitiveInvoked = true ∧
      (pull_remote pullOk []).optionsRefs = [] ∧
      (pull_remote pullOk []).ok = pullOk := by
  intro pullOk
  exact ⟨rfl, rfl, rfl⟩

/-- Claim C6 (code evidence): a readable store with zero configured remotes
is reported as a failure. `ostree_repo_remote_list` returns NULL for an
empty remote set (it has no failure mode of its own), `list_remote` maps
that NULL to the error "Failed to list remotes", and the transaction exits
with failure right after listing, never reaching the add-remote step. -/
theorem c6_zero_remote_store_reported_as_failure :
    ostree_repo_remote_list [] = none ∧
    (list_remote []).err = some "Failed to list remotes" ∧
    (exec oEmptyStore).outcome = Outcome.exit EXIT_FAILURE ∧
    (exec oEmptyStore).exitVia = ExitPoint.listFail ∧
    (exec oEmptyStore).trace = [Event.openRepo repo_path, Event.listRemotes] ∧
    "Update failed" ∈ (exec oEmptyStore).prints := by
  refine ⟨rfl, rfl, rfl, rfl, rfl, ?_⟩
  decide

/-- Claim C8 (code evidence): when `open_repo` fails, `main`'s
`goto cleanup` jumps over the declarations of `remote_list` (line 136),
`new_commit` (line 183), `sysroot` (line 191) and `origin` (line 199), so
the cleanup label's `if (remote_list)`, `if (new_commit)`, `if (sysroot)`
and `if (origin)` tests read indeterminate pointers — handles that were
never acquired or initialized on that path. -/
theorem c8_cleanup_reads_uninitialized_handles :
    (exec oOpenFail).exitVia = ExitPoint.openFail ∧
    varsAtCleanup ExitPoint.openFail =
      some { repo := VarState.null, remote_list := VarState.uninitialized,
             new_commit := VarState.uninitialized, sysroot := VarState.uninitialized,
             origin := VarState.uninitialized } ∧
    (varsAtCleanup ExitPoint.openFail).map cleanupReadsUninitialized = some true := by
  exact ⟨rfl, rfl, rfl⟩

/-- Claim C9 (code evidence): `create_origin` takes no GError and never
sets one, so on its failure path the GError `main` reads for the report is
still NULL: the surfaced diagnostic was not produced by the failing step,
and dereferencing `error->message` crashes the run. On other paths (here:
the open failure) the surfaced message is the collaborator's, unmodified. -/
theorem c9_origin_failure_reads_null_error :
    (exec oOriginFail).exitVia = ExitPoint.originFail ∧
    (exec oOriginFail).errorReads = [("Failed to create an .origin file", (none : Option String))] ∧
    (exec oOriginFail).outcome = Outcome.crash ∧
    (exec oOpenFail).errorReads = [("Failed to open repo", some "no repo")] := by
  exact ⟨rfl, rfl, rfl, rfl⟩

/-- Claim C2 counterexample: on a run where every step up to and including
staging succeeds and only `ostree_sysroot_cleanup` fails, the program does
not report a successful update: it exits with EXIT_FAILURE and prints
"Update failed". -/
theorem c2_counterexample :
    (exec oCleanupFail).outcome = Outcome.exit EXIT_FAILURE ∧
    ¬(exec oCleanupFail).outcome = Outcome.exit EXIT_SUCCESS ∧
    "OSTree cleanup failed: disk full" ∈ (exec oCleanupFail).prints ∧
    "Update failed" ∈ (exec oCleanupFail).prints := by
  refine ⟨rfl, ?_, ?_, ?_⟩ <;> decide

/-- Claim C2 (amended): when staging succeeds but the prune/cleanup step
fails, the staged deployment is never reverted — the trace ends at the
cleanup invocation with no further boot-state operation — and the staged
commit identifier was already reported; but the overall outcome is a
failure exit status with "Update failed" printed, not a success report
with a non-fatal warning. -/
theorem c2_prune_failure_is_fatal_but_never_reverts (o : Oracle) (c : String)
    (hopen : o.ostree_repo_open_ok = true)
    (hmem : remote_name ∈ o.remotes)
    (hpull : o.ostree_repo_pull_ok = true)
    (hres : o.resolve_result = some c)
    (hload : o.ostree_sysroot_load_ok = true)
    (horig : o.origin_new_ok = true)
    (hstage : o.stage_ok = true)
    (hclean : o.sysroot_cleanup_ok = false) :
    (exec o).outcome = Outcome.exit EXIT_FAILURE ∧
    ("Deployed new commit " ++ c ++ ". It will boot on next restart.") ∈ (exec o).prints ∧
    ("OSTree cleanup failed: " ++ o.cleanup_err) ∈ (exec o).prints ∧
    (exec o).trace =
      [Event.openRepo repo_path, Event.listRemotes, Event.pull remote_name refs,
       Event.resolve ref, Event.loadSysroot,
       Event.originNew (create_origin_refspec remote_name ref),
       Event.stage osname c, Event.sysrootCleanup] := by
  have hne : o.remotes.isEmpty = false := by
    cases hrem : o.remotes with
    | nil => rw [hrem] at hmem; simp at hmem
    | cons a l => simp
  unfold exec list_remote ostree_repo_remote_list stepEnsure stepPull pull_remote stepResolve
    stepLoad stepOrigin stepStage stepCleanupRun
  simp [hopen, hne, hmem, hpull, hres, hload, horig, hstage, hclean]

/-- Claim C2 amended, at a concrete input: all steps succeed except the
final cleanup, which fails with "disk full". -/
theorem c2_prune_failure_witness :
    (exec oCleanupFail).outcome = Outcome.exit EXIT_FAILURE ∧
    ("Deployed new commit " ++ "c0ffee" ++ ". It will boot on next restart.") ∈
      (exec oCleanupFail).prints ∧
    ("OSTree cleanup failed: " ++ oCleanupFail.cleanup_err) ∈ (exec oCleanupFail).prints ∧
    (exec oCleanupFail).trace =
      [Event.openRepo repo_path, Event.listRemotes, Event.pull remote_name refs,
       Event.resolve ref, Event.loadSysroot,
       Event.originNew (create_origin_refspec remote_name ref),
       Event.stage osname "c0ffee", Event.sysrootCleanup] :=
  c2_prune_failure_is_fatal_but_never_reverts oCleanupFail "c0ffee"
    rfl (by decide) rfl rfl rfl rfl rfl rfl

theorem pull_mem_tailTrace (o : Oracle) (r : String) (rs : List String) :
    Event.pull r rs ∈ tailTrace o ↔ (r = remote_name ∧ rs = refs) := by
  unfold tailTrace
  by_cases hp : o.ostree_repo_pull_ok = false <;>
    cases hr : o.resolve_result <;>
    by_cases hl : o.ostree_sysroot_load_ok = false <;>
    by_cases ho : o.origin_new_ok = false <;>
    by_cases hs : o.stage_ok = false <;>
    simp [hp, hr, hl, ho, hs]

theorem resolve_mem_tailTrace (o : Oracle) (s : String) :
    Event.resolve s ∈ tailTrace o ↔ (s = ref ∧ o.ostree_repo_pull_ok = true) := by
  unfold tailTrace
  by_cases hp : o.ostree_repo_pull_ok = false <;>
    cases hr : o.resolve_result <;>
    by_cases hl : o.ostree_sysroot_load_ok = false <;>
    by_cases ho : o.origin_new_ok = false <;>
    by_cases hs : o.stage_ok = false <;>
    simp_all [hp, hr, hl, ho, hs]

theorem load_mem_tailTrace (o : Oracle) :
    Event.loadSysroot ∈ tailTrace o ↔
      (o.ostree_repo_pull_ok = true ∧ o.resolve_result.isSome = true) := by
  unfold tailTrace
  by_cases hp : o.ostree_repo_pull_ok = false <;>
    cases hr : o.resolve_result <;>
    by_cases hl : o.ostree_sysroot_load_ok = false <;>
    by_cases ho : o.origin_new_ok = false <;>
    by_cases hs : o.stage_ok = false <;>
    simp_all [hp, hr, hl, ho, hs]

theorem origin_mem_tailTrace (o : Oracle) (z : String) :
    Event.originNew z ∈ tailTrace o ↔
      (z = create_origin_refspec remote_name ref ∧ o.ostree_repo_pull_ok = true ∧
       o.resolve_result.isSome = true ∧ o.ostree_sysroot_load_ok = true) := by
  unfold tailTrace
  by_cases hp : o.ostree_repo_pull_ok = false <;>
    cases hr : o.resolve_result <;>
    by_cases hl : o.ostree_sysroot_load_ok = false <;>
    by_cases ho : o.origin_new_ok = false <;>
    by_cases hs : o.stage_ok = false <;>
    simp_all [hp, hr, hl, ho, hs]

theorem stage_mem_tailTrace (o : Oracle) (os c : String) :
    Event.stage os c ∈ tailTrace o ↔
      (os = osname ∧ o.resolve_result = some c ∧ o.ostree_repo_pull_ok = true ∧
       o.ostree_sysroot_load_ok = true ∧ o.origin_new_ok = true) := by
  unfold tailTrace
  by_cases hp : o.ostree_repo_pull_ok = false <;>
    cases hr : o.resolve_result <;>
    by_cases hl : o.ostree_sysroot_load_ok = false <;>
    by_cases ho : o.origin_new_ok = false <;>
    by_cases hs : o.stage_ok = false <;>
    (try simp_all [hp, hr, hl, ho, hs]) <;> aesop

theorem cleanup_mem_tailTrace (o : Oracle) :
    Event.sysrootCleanup ∈ tailTrace o ↔
      (o.ostree_repo_pull_ok = true ∧ o.resolve_result.isSome = true ∧
       o.ostree_sysroot_load_ok = true ∧ o.origin_new_ok = true ∧ o.stage_ok = true) := by
  unfold tailTrace
  by_cases hp : o.ostree_repo_pull_ok = false <;>
    cases hr : o.resolve_result <;>
    by_cases hl : o.ostree_sysroot_load_ok = false <;>
    by_cases ho : o.origin_new_ok = false <;>
    by_cases hs : o.stage_ok = false <;>
    simp_all [hp, hr, hl, ho, hs]

theorem addRemote_not_mem_tailTrace (o : Oracle) (n u : String) :
    Event.addRemote n u ∉ tailTrace o := by
  unfold tailTrace
  by_cases hp : o.ostree_repo_pull_ok = false <;>
    cases hr : o.resolve_result <;>
    by_cases hl : o.ostree_sysroot_load_ok = false <;>
    by_cases ho : o.origin_new_ok = false <;>
    by_cases hs : o.stage_ok = false <;>
    simp_all [hp, hr, hl, ho, hs]

/-- Membership in the full run trace, for events other than the open, list
and add steps: the event occurs exactly when the ensure-remote phase fully
succeeded and the event occurs in the tail of the run. -/
theorem mem_exec_iff_tail (o : Oracle) (e : Event)
    (h1 : ∀ p, e ≠ Event.openRepo p) (h2 : e ≠ Event.listRemotes)
    (h3 : ∀ n u, e ≠ Event.addRemote n u) :
    e ∈ (exec o).trace ↔
      (o.ostree_repo_open_ok = true ∧ o.remotes ≠ [] ∧
       (remote_name ∈ o.remotes ∨ o.ostree_repo_remote_add_ok = true) ∧
       e ∈ tailTrace o) := by
  rw [exec_trace]
  by_cases hop : o.ostree_repo_open_ok = false <;>
    by_cases hre : o.remotes.isEmpty <;>
    by_cases hcm : remote_name ∈ o.remotes <;>
    by_cases had : o.ostree_repo_remote_add_ok = false <;>
    simp_all [hop, hre, hcm, had]

theorem addRemote_mem_exec (o : Oracle) (n u : String) :
    Event.addRemote n u ∈ (exec o).trace ↔
      (n = remote_name ∧ u = remote_url ∧ o.ostree_repo_open_ok = true ∧
       o.remotes ≠ [] ∧ remote_name ∉ o.remotes) := by
  rw [exec_trace]
  by_cases hop : o.ostree_repo_open_ok = false <;>
    by_cases hre : o.remotes.isEmpty <;>
    by_cases hcm : remote_name ∈ o.remotes <;>
    by_cases had : o.ostree_repo_remote_add_ok = false <;>
    simp_all [hop, hre, hcm, had, addRemote_not_mem_tailTrace]

theorem openRepo_not_mem_tailTrace (o : Oracle) (p : String) :
    Event.openRepo p ∉ tailTrace o := by
  unfold tailTrace
  by_cases hp : o.ostree_repo_pull_ok = false <;>
    cases hr : o.resolve_result <;>
    by_cases hl : o.ostree_sysroot_load_ok = false <;>
    by_cases ho : o.origin_new_ok = false <;>
    by_cases hs : o.stage_ok = false <;>
    simp_all [hp, hr, hl, ho, hs]

theorem openRepo_mem_exec (o : Oracle) (p : String) :
    Event.openRepo p ∈ (exec o).trace ↔ p = repo_path := by
  rw [exec_trace]
  by_cases hop : o.ostree_repo_open_ok = false <;>
    by_cases hre : o.remotes.isEmpty <;>
    by_cases hcm : remote_name ∈ o.remotes <;>
    by_cases had : o.ostree_repo_remote_add_ok = false <;>
    simp_all [hop, hre, hcm, had, openRepo_not_mem_tailTrace]

/-- Claim C1: if any step fails before staging, the boot environment is
left untouched — no deployment-staging (`ostree_sysroot_stage_tree...`)
and no deployment-pruning (`ostree_sysroot_cleanup`) operation is invoked
on that execution path. -/
theorem c1_failure_before_stage_leaves_boot_untouched (o : Oracle)
    (h : preStageFailure o) :
    (∀ os c, Event.stage os c ∉ (exec o).trace) ∧
    Event.sysrootCleanup ∉ (exec o).trace := by
  constructor
  · intro os c hmem
    rw [mem_exec_iff_tail o _ (by simp) (by simp) (by simp)] at hmem
    obtain ⟨hop, hne, hens, htail⟩ := hmem
    rw [stage_mem_tailTrace] at htail
    obtain ⟨_, hres, hpull, hload, horig⟩ := htail
    rcases h with h | h | ⟨h1, h2⟩ | h | h | h | h <;> simp_all
  · intro hmem
    rw [mem_exec_iff_tail o _ (by simp) (by simp) (by simp)] at hmem
    obtain ⟨hop, hne, hens, htail⟩ := hmem
    rw [cleanup_mem_tailTrace] at htail
    obtain ⟨hpull, hres, hload, horig, _⟩ := htail
    rcases h with h | h | ⟨h1, h2⟩ | h | h | h | h <;> simp_all

/-- Claim C1 at a concrete input: the repository fails to open, and
neither a staging nor a pruning operation appears in the trace. -/
theorem c1_witness :
    (∀ os c, Event.stage os c ∉ (exec oOpenFail).trace) ∧
    Event.sysrootCleanup ∉ (exec oOpenFail).trace :=
  c1_failure_before_stage_leaves_boot_untouched oOpenFail (Or.inl rfl)

/-- Claim C5: the trace of every run is a subsequence of the canonical
step order (so no two steps are ever reordered), and each step occurs only
when all the steps before it occurred and succeeded: pull requires the
ensure-remote phase, resolve requires a successful pull, load-deployments
requires a successful resolve, build-origin requires a successful load,
stage requires a successful build-origin and resolve, and prune requires a
successful stage. -/
theorem c5_strict_step_ordering (o : Oracle) :
    List.Sublist (exec o).trace (fullSequence o) ∧
    (Event.pull remote_name refs ∈ (exec o).trace →
       o.ostree_repo_open_ok = true ∧ o.remotes ≠ [] ∧
       (remote_name ∈ o.remotes ∨ o.ostree_repo_remote_add_ok = true)) ∧
    (Event.resolve ref ∈ (exec o).trace →
       Event.pull remote_name refs ∈ (exec o).trace ∧ o.ostree_repo_pull_ok = true) ∧
    (Event.loadSysroot ∈ (exec o).trace →
       Event.resolve ref ∈ (exec o).trace ∧ o.resolve_result.isSome = true) ∧
    (Event.originNew (create_origin_refspec remote_name ref) ∈ (exec o).trace →
       Event.loadSysroot ∈ (exec o).trace ∧ o.ostree_sysroot_load_ok = true) ∧
    (∀ os c, Event.stage os c ∈ (exec o).trace →
       Event.originNew (create_origin_refspec remote_name ref) ∈ (exec o).trace ∧
       o.origin_new_ok = true ∧ o.resolve_result = some c) ∧
    (Event.sysrootCleanup ∈ (exec o).trace →
       Event.stage osname (o.resolve_result.getD "") ∈ (exec o).trace ∧
       o.stage_ok = true) := by
  refine ⟨?_, ?_, ?_, ?_, ?_, ?_, ?_⟩
  · rw [exec_trace]
    unfold fullSequence tailTrace
    by_cases hop : o.ostree_repo_open_ok = false <;>
      by_cases hre : o.remotes.isEmpty <;>
      by_cases hcm : remote_name ∈ o.remotes <;>
      by_cases had : o.ostree_repo_remote_add_ok = false <;>
      by_cases hp : o.ostree_repo_pull_ok = false <;>
      cases hr : o.resolve_result <;>
      by_cases hl : o.ostree_sysroot_load_ok = false <;>
      by_cases ho : o.origin_new_ok = false <;>
      by_cases hs : o.stage_ok = false <;>
      simp [hop, hre, hcm, had, hp, hr, hl, ho, hs]
  · intro hmem
    rw [mem_exec_iff_tail o _ (by simp) (by simp) (by simp)] at hmem
    exact ⟨hmem.1, hmem.2.1, hmem.2.2.1⟩
  · intro hmem
    rw [mem_exec_iff_tail o _ (by simp) (by simp) (by simp)] at hmem
    obtain ⟨hop, hne, hens, htail⟩ := hmem
    rw [resolve_mem_tailTrace] at htail
    refine ⟨?_, htail.2⟩
    rw [mem_exec_iff_tail o _ (by simp) (by simp) (by simp)]
    exact ⟨hop, hne, hens, by rw [pull_mem_tailTrace]; exact ⟨rfl, rfl⟩⟩
  · intro hmem
    rw [mem_exec_iff_tail o _ (by simp) (by simp) (by simp)] at hmem
    obtain ⟨hop, hne, hens, htail⟩ := hmem
    rw [load_mem_tailTrace] at htail
    refine ⟨?_, htail.2⟩
    rw [mem_exec_iff_tail o _ (by simp) (by simp) (by simp)]
    exact ⟨hop, hne, hens, by rw [resolve_mem_tailTrace]; exact ⟨rfl, htail.1⟩⟩
  · intro hmem
    rw [mem_exec_iff_tail o _ (by simp) (by simp) (by simp)] at hmem
    obtain ⟨hop, hne, hens, htail⟩ := hmem
    rw [origin_mem_tailTrace] at htail
    refine ⟨?_, htail.2.2.2⟩
    rw [mem_exec_iff_tail o _ (by simp) (by simp) (by simp)]
    exact ⟨hop, hne, hens, by
      rw [load_mem_tailTrace]; exact ⟨htail.2.1, htail.2.2.1⟩⟩
  · intro os c hmem
    rw [mem_exec_iff_tail o _ (by simp) (by simp) (by simp)] at hmem
    obtain ⟨hop, hne, hens, htail⟩ := hmem
    rw [stage_mem_tailTrace] at htail
    obtain ⟨hos, hres, hpull, hload, horig⟩ := htail
    refine ⟨?_, horig, hres⟩
    rw [mem_exec_iff_tail o _ (by simp) (by simp) (by simp)]
    refine ⟨hop, hne, hens, ?_⟩
    rw [origin_mem_tailTrace]
    exact ⟨rfl, hpull, by simp [hres], hload⟩
  · intro hmem
    rw [mem_exec_iff_tail o _ (by simp) (by simp) (by simp)] at hmem
    obtain ⟨hop, hne, hens, htail⟩ := hmem
    rw [cleanup_mem_tailTrace] at htail
    obtain ⟨hpull, hres, hload, horig, hstage⟩ := htail
    refine ⟨?_, hstage⟩
    rw [mem_exec_iff_tail o _ (by simp) (by simp) (by simp)]
    refine ⟨hop, hne, hens, ?_⟩
    rw [stage_mem_tailTrace]
    obtain ⟨c, hc⟩ := Option.isSome_iff_exists.mp hres
    exact ⟨rfl, by simp [hc], hpull, hload, horig⟩

/-- Claim C10: the program consumes no external input. `main` takes no
arguments and never reads the environment, so for a fixed collaborator
behavior any two invocations produce identical runs; and every
collaborator operation in the trace carries the program's fixed constants
as arguments (path, remote name/url, refs, ref, osname), with the staged
commit determined by the collaborator's resolve result. -/
theorem c10_no_external_input (argv1 argv2 : List String)
    (envp1 envp2 : List (String × String)) (o : Oracle) :
    mainEntry argv1 envp1 o = mainEntry argv2 envp2 o ∧
    (∀ p, Event.openRepo p ∈ (mainEntry argv1 envp1 o).trace → p = repo_path) ∧
    (∀ n u, Event.addRemote n u ∈ (mainEntry argv1 envp1 o).trace →
       n = remote_name ∧ u = remote_url) ∧
    (∀ r rs, Event.pull r rs ∈ (mainEntry argv1 envp1 o).trace →
       r = remote_name ∧ rs = refs) ∧
    (∀ s, Event.resolve s ∈ (mainEntry argv1 envp1 o).trace → s = ref) ∧
    (∀ z, Event.originNew z ∈ (mainEntry argv1 envp1 o).trace →
       z = create_origin_refspec remote_name ref) ∧
    (∀ os c, Event.stage os c ∈ (mainEntry argv1 envp1 o).trace →
       os = osname ∧ o.resolve_result = some c) := by
  refine ⟨rfl, ?_, ?_, ?_, ?_, ?_, ?_⟩
  · intro p hmem
    exact (openRepo_mem_exec o p).mp hmem
  · intro n u hmem
    have h := (addRemote_mem_exec o n u).mp hmem
    exact ⟨h.1, h.2.1⟩
  · intro r rs hmem
    rw [mainEntry, mem_exec_iff_tail o _ (by simp) (by simp) (by simp)] at hmem
    exact (pull_mem_tailTrace o r rs).mp hmem.2.2.2
  · intro s hmem
    rw [mainEntry, mem_exec_iff_tail o _ (by simp) (by simp) (by simp)] at hmem
    exact ((resolve_mem_tailTrace o s).mp hmem.2.2.2).1
  · intro z hmem
    rw [mainEntry, mem_exec_iff_tail o _ (by simp) (by simp) (by simp)] at hmem
    exact ((origin_mem_tailTrace o z).mp hmem.2.2.2).1
  · intro os c hmem
    rw [mainEntry, mem_exec_iff_tail o _ (by simp) (by simp) (by simp)] at hmem
    have h := (stage_mem_tailTrace o os c).mp hmem.2.2.2
    exact ⟨h.1, h.2.1⟩

/-- When no pair in the store carries `name`, filtering for it is empty. -/
theorem filter_name_nil (store : List (String × String)) (name : String)
    (h : name ∉ store.map Prod.fst) :
    store.filter (fun p => p.1 = name) = [] := by
  induction store with
  | nil => rfl
  | cons a t ih =>
    simp only [List.map_cons, List.mem_cons] at h
    push_neg at h
    obtain ⟨h1, h2⟩ := h
    have h1' : ¬(a.1 = name) := fun he => h1 he.symm
    simp [List.filter_cons, ih h2, h1']

/-- With pairwise-distinct names, a present name is carried by exactly one
pair of the store. -/
theorem filter_name_one (store : List (String × String)) (name : String)
    (hnodup : (store.map Prod.fst).Nodup) (hmem : name ∈ store.map Prod.fst) :
    (store.filter (fun p => p.1 = name)).length = 1 := by
  induction store with
  | nil => simp at hmem
  | cons a t ih =>
    simp only [List.map_cons, List.nodup_cons] at hnodup
    obtain ⟨hna, hnt⟩ := hnodup
    simp only [List.map_cons, List.mem_cons] at hmem
    rcases hmem with hmem | hmem
    · have ht : t.filter (fun p => p.1 = name) = [] := by
        refine filter_name_nil t name ?_
        rw [hmem]
        exact hna
      simp [List.filter_cons, hmem.symm, ht]
    · have hne : ¬(a.1 = name) := fun he => hna (he ▸ hmem)
      simp [List.filter_cons, hne, ih hnt hmem]

/-- Claim C7: the ensure-remote step is an idempotent upsert-by-name.
Under the registry invariant that configured names are pairwise distinct,
running it twice with the same name and url never errors and leaves
exactly one remote with that name; and when the name is already present
the step succeeds without invoking the store's add-remote operation,
leaving the store — in particular the existing remote's URL — unchanged,
whatever url was supplied. -/
theorem c7_ensure_idempotent_by_name (store : List (String × String)) (name url : String)
    (hnodup : (store.map Prod.fst).Nodup) :
    (ensureStep store name url).ok = true ∧
    (ensureStep (ensureStep store name url).store name url).ok = true ∧
    (ensureStep (ensureStep store name url).store name url).addInvoked = false ∧
    (((ensureStep (ensureStep store name url).store name url).store.filter
        (fun p => p.1 = name)).length = 1) ∧
    (name ∈ store.map Prod.fst →
       (ensureStep store name url).addInvoked = false ∧
       (ensureStep store name url).store = store) := by
  by_cases hm : name ∈ store.map Prod.fst
  · unfold ensureStep ostree_repo_remote_add
    simp [hm]
    exact filter_name_one store name hnodup hm
  · unfold ensureStep ostree_repo_remote_add
    simp [hm]
    intro a b hab hcontra
    exact hm (hcontra ▸ List.mem_map_of_mem Prod.fst hab)

/-- Claim C7 at a concrete input: the remote already exists with a
different URL; the step succeeds twice, leaves one remote with the name,
and never touches the stored URL. -/
theorem c7_witness :
    (ensureStep [("linuxmint", "https://old.example/repo")] "linuxmint"
        "https://updates.myserver.com/ostreerepo").ok = true ∧
    (ensureStep (ensureStep [("linuxmint", "https://old.example/repo")] "linuxmint"
        "https://updates.myserver.com/ostreerepo").store "linuxmint"
        "https://updates.myserver.com/ostreerepo").ok = true ∧
    (ensureStep (ensureStep [("linuxmint", "https://old.example/repo")] "linuxmint"
        "https://updates.myserver.com/ostreerepo").store "linuxmint"
        "https://updates.myserver.com/ostreerepo").addInvoked = false ∧
    (((ensureStep (ensureStep [("linuxmint", "https://old.example/repo")] "linuxmint"
        "https://updates.myserver.com/ostreerepo").store "linuxmint"
        "https://updates.myserver.com/ostreerepo").store.filter
        (fun p => p.1 = "linuxmint")).length = 1) ∧
    ("linuxmint" ∈ [("linuxmint", "https://old.example/repo")].map Prod.fst →
       (ensureStep [("linuxmint", "https://old.example/repo")] "linuxmint"
          "https://updates.myserver.com/ostreerepo").addInvoked = false ∧
       (ensureStep [("linuxmint", "https://old.example/repo")] "linuxmint"
          "https://updates.myserver.com/ostreerepo").store =
         [("linuxmint", "https://old.example/repo")]) :=
  c7_ensure_idempotent_by_name [("linuxmint", "https://old.example/repo")]
    "linuxmint" "https://updates.myserver.com/ostreerepo" (by decide)

end UpdateManager
